import Mathlib

/-!
Verification of `src/app/tools/football_tools.py` (pitchside-analytics).

The module is a single API adapter: a static league-name registry
(`LEAGUE_MAP`), a resolver (`_get_league_id`) and one tool function
(`get_league_standings`) that issues an HTTP GET and reshapes the
provider's nested JSON into a flat list of team records.

The embedding below models JSON values, Python's dynamic field access
(where a missing key or a wrongly typed access raises an uncaught
exception, modelled as `Except.error`), Python truthiness, and the
single HTTP call as an explicit `HttpOutcome` argument: either the
transport layer raised a `requests.exceptions.RequestException` (any
network error, timeout, or non-2xx status surfaced by
`raise_for_status`) carrying a message, or it produced a parsed JSON
body.  The Python function's three possible behaviours — returning a
list of records, returning a `{"error": ...}` dict, or letting an
exception escape to the caller — are the three constructors of
`FetchResult`.
-/

/-- A JSON value as produced by `response.json()`.  Numbers are modelled
as integers: every numeric field the adapter touches (ranks, points,
match counts) is integral in the provider's schema. -/
inductive Json where
  | null : Json
  | bool : Bool → Json
  | num : Int → Json
  | str : String → Json
  | arr : List Json → Json
  | obj : List (String × Json) → Json

/-- Python truthiness of a JSON value: `None`, `False`, `0`, `""`, `[]`
and `\x7b\x7d` are falsy, everything else truthy. -/
def Json.truthy : Json → Bool
  | .null => false
  | .bool b => b
  | .num n => n != 0
  | .str s => s != ""
  | .arr xs => !xs.isEmpty
  | .obj kvs => !kvs.isEmpty

/-- Python subscript `value[key]` with a string key: `KeyError` when the
key is absent from a dict, `TypeError` when the value is not a dict.
Both are uncaught exceptions, modelled as `Except.error`. -/
def Json.getKey : Json → String → Except Unit Json
  | .obj kvs, k =>
    match kvs.lookup k with
    | some v => .ok v
    | none => .error ()
  | _, _ => .error ()

/-- Python subscript `value[i]` with an integer index: out-of-range on a
list is `IndexError`; an integer subscript on a dict with string keys is
`KeyError`; on a string it yields the one-character substring; on other
values `TypeError`.  All exception cases are `Except.error`. -/
def Json.getIdx : Json → Nat → Except Unit Json
  | .arr xs, i =>
    match xs.get? i with
    | some v => .ok v
    | none => .error ()
  | .str s, i =>
    match s.toList.get? i with
    | some c => .ok (.str (String.mk [c]))
    | none => .error ()
  | _, _ => .error ()

/-- Python `value.get(key)`: `None` (here `none`) when the key is absent
from a dict, the value otherwise; `AttributeError` (an uncaught fault)
when the receiver is not a dict. -/
def Json.pyGet : Json → String → Except Unit (Option Json)
  | .obj kvs, k => .ok (kvs.lookup k)
  | _, _ => .error ()

/-- Python iteration `for x in value`: a list yields its elements, a
dict its keys, a string its one-character substrings; other values
raise `TypeError`. -/
def Json.pyIter : Json → Except Unit (List Json)
  | .arr xs => .ok xs
  | .obj kvs => .ok (kvs.map (fun kv => Json.str kv.1))
  | .str s => .ok (s.toList.map (fun c => Json.str (String.mk [c])))
  | _ => .error ()

/-- Truthiness of the result of `dict.get(...)`: `None` is falsy,
otherwise the JSON value's own truthiness. -/
def pyTruthyOpt : Option Json → Bool
  | none => false
  | some j => j.truthy

/-- The league registry `LEAGUE_MAP`: lowercase league name to
provider-assigned integer ID, exactly as in the source. -/
def LEAGUE_MAP : List (String × Int) :=
  [("premier league", 39),
   ("la liga", 140),
   ("bundesliga", 78),
   ("serie a", 135),
   ("ligue 1", 61),
   ("mls", 253),
   ("champions league", 2)]

/-- The resolver `_get_league_id`: lowercase the name and look it up
with `dict.get`, which returns `None` (here `none`) when absent. -/
def _get_league_id (league_name : String) : Option Int :=
  LEAGUE_MAP.lookup league_name.toLower

/-- Python truthiness test `not league_id` on the resolver's result:
`None` and `0` are falsy, every other integer truthy. -/
def optIntFalsy : Option Int → Bool
  | none => true
  | some n => n == 0

/-- One normalized team standing record.  Fields hold the raw JSON
values extracted from the provider entry, in the source's dict-literal
order. -/
structure TeamRecord where
  rank : Json
  team : Json
  points : Json
  games_played : Json
  wins : Json
  draws : Json
  losses : Json

/-- Outcome of the single `requests.get` + `raise_for_status` + `.json()`
sequence: either a `RequestException` was raised (network error,
timeout, non-2xx status, undecodable body) carrying a message, or a
parsed JSON body was obtained. -/
inductive HttpOutcome where
  | failure : String → HttpOutcome
  | success : Json → HttpOutcome

/-- What `get_league_standings` does from the caller's point of view:
return a list of records, return an `\x7b"error": msg\x7d` dict, or let
an uncaught exception propagate (`fault`). -/
inductive FetchResult where
  | records : List TeamRecord → FetchResult
  | error : String → FetchResult
  | fault : FetchResult

/-- The body of the list comprehension: build one record from one team
entry, accessing `rank`, `team.name`, `points`, `all.played`, `all.win`,
`all.draw`, `all.lose`.  Any missing key or wrongly typed access is an
uncaught exception. -/
def formatTeam (team : Json) : Except Unit TeamRecord :=
  match team.getKey "rank" with
  | .error e => .error e
  | .ok rank =>
    match team.getKey "team" with
    | .error e => .error e
    | .ok teamObj =>
      match teamObj.getKey "name" with
      | .error e => .error e
      | .ok name =>
        match team.getKey "points" with
        | .error e => .error e
        | .ok points =>
          match team.getKey "all" with
          | .error e => .error e
          | .ok allObj =>
            match allObj.getKey "played" with
            | .error e => .error e
            | .ok played =>
              match allObj.getKey "win" with
              | .error e => .error e
              | .ok win =>
                match allObj.getKey "draw" with
                | .error e => .error e
                | .ok draw =>
                  match allObj.getKey "lose" with
                  | .error e => .error e
                  | .ok lose =>
                    .ok ⟨rank, name, points, played, win, draw, lose⟩

/-- The expression `data['response'][0]['league']['standings']`, the
second operand of the emptiness guard: sequential subscripting where the
first failing access aborts with an uncaught exception. -/
def standingsField (data : Json) : Except Unit Json :=
  match data.getKey "response" with
  | .error e => .error e
  | .ok resp =>
    match resp.getIdx 0 with
    | .error e => .error e
    | .ok first =>
      match first.getKey "league" with
      | .error e => .error e
      | .ok league => league.getKey "standings"

/-- The list comprehension `[\x7b...\x7d for team in standings]`: entries
are processed front to back and the first uncaught exception aborts the
whole comprehension. -/
def buildRecords : List Json → Except Unit (List TeamRecord)
  | [] => .ok []
  | t :: ts =>
    match formatTeam t with
    | .error e => .error e
    | .ok r =>
      match buildRecords ts with
      | .error e => .error e
      | .ok rs => .ok (r :: rs)

/-- Everything `get_league_standings` does with a successfully parsed
body `data`: the emptiness guard (with Python's short-circuit `or`),
extraction of the first standings group, and the list comprehension.
Uncaught exceptions anywhere in this region propagate as `fault`
because the surrounding `try` only catches `RequestException`. -/
def processBody (data : Json) : FetchResult :=
  match data.pyGet "response" with
  | .error _ => .fault
  | .ok respOpt =>
    if !pyTruthyOpt respOpt then
      .error "No standings found for this league and season."
    else
      match standingsField data with
      | .error _ => .fault
      | .ok st =>
        if !st.truthy then
          .error "No standings found for this league and season."
        else
          match st.getIdx 0 with
          | .error _ => .fault
          | .ok group =>
            match group.pyIter with
            | .error _ => .fault
            | .ok teams =>
              match buildRecords teams with
              | .error _ => .fault
              | .ok recs => .records recs

/-- The tool function `get_league_standings(league_name, season)`.  The
`season` string is passed through verbatim as a query parameter and
never influences the local computation; the transport's behaviour is
the explicit `http` argument. -/
def get_league_standings (league_name : String) (season : String)
    (http : HttpOutcome) : FetchResult :=
  let league_id := _get_league_id league_name
  if optIntFalsy league_id then
    .error ("Could not find a league with the name '" ++ league_name ++ "'.")
  else
    match http with
    | .failure e => .error ("API request failed: " ++ e)
    | .success data => processBody data

/-- Whether `j[k]` would succeed: `j` is a dict carrying the key `k`. -/
def hasField (j : Json) (k : String) : Bool :=
  match j.getKey k with
  | .ok _ => true
  | .error _ => false

/-- Total variant of subscripting, used only to state results about
entries that `hasTeamFields` has already checked: the value under `k`,
or `null` when the access would fault. -/
def Json.getKeyD (j : Json) (k : String) : Json :=
  match j.getKey k with
  | .ok v => v
  | .error _ => .null

/-- A team entry carries every field the comprehension body reads:
`rank`, `team.name`, `points`, `all.played`, `all.win`, `all.draw`,
`all.lose`. -/
def hasTeamFields (t : Json) : Bool :=
  hasField t "rank" &&
  hasField t "team" &&
  hasField (t.getKeyD "team") "name" &&
  hasField t "points" &&
  hasField t "all" &&
  hasField (t.getKeyD "all") "played" &&
  hasField (t.getKeyD "all") "win" &&
  hasField (t.getKeyD "all") "draw" &&
  hasField (t.getKeyD "all") "lose"

/-- The source's field mapping for one team entry, as a total function:
`rank` from `rank`, `team` from `team.name`, `points` from `points`,
`games_played`, `wins`, `draws`, `losses` from `all.played`, `all.win`,
`all.draw`, `all.lose`. -/
def mappedRecord (t : Json) : TeamRecord where
  rank := t.getKeyD "rank"
  team := (t.getKeyD "team").getKeyD "name"
  points := t.getKeyD "points"
  games_played := (t.getKeyD "all").getKeyD "played"
  wins := (t.getKeyD "all").getKeyD "win"
  draws := (t.getKeyD "all").getKeyD "draw"
  losses := (t.getKeyD "all").getKeyD "lose"

/-- A provider body of the documented shape: one response element whose
`league.standings` is the given list of standings groups. -/
def mkData (groups : List Json) : Json :=
  .obj [("response", .arr [.obj [("league", .obj [("standings", .arr groups)])]])]

/-- The one-team standings entry from the spec's La Liga scenario. -/
def rmEntry : Json :=
  .obj [("rank", .num 1),
        ("team", .obj [("name", .str "Real Madrid")]),
        ("points", .num 90),
        ("all", .obj [("played", .num 38), ("win", .num 29),
                      ("draw", .num 3), ("lose", .num 6)])]

/-! ### Helper lemmas -/

theorem toLower_eq_mk (s : String) : s.toLower = ⟨s.data.map Char.toLower⟩ :=
  String.map_eq Char.toLower s

theorem lookup_mem {l : List (String × Int)} {k : String} {v : Int}
    (h : l.lookup k = some v) : (k, v) ∈ l := by
  induction l with
  | nil => simp [List.lookup] at h
  | cons p ps ih =>
    obtain ⟨a, b⟩ := p
    rw [List.lookup] at h
    cases hbeq : k == a with
    | true =>
      rw [hbeq] at h
      simp only [Option.some.injEq] at h
      have hk : k = a := eq_of_beq hbeq
      subst hk
      subst h
      exact List.mem_cons_self _ _
    | false =>
      rw [hbeq] at h
      exact List.mem_cons_of_mem _ (ih h)

theorem lookup_eq_none_of_not_mem {l : List (String × Int)} {k : String}
    (h : k ∉ l.map Prod.fst) : l.lookup k = none := by
  induction l with
  | nil => rfl
  | cons p ps ih =>
    obtain ⟨a, b⟩ := p
    simp only [List.map_cons, List.mem_cons, not_or] at h
    rw [List.lookup]
    rw [show (k == a) = false from beq_eq_false_iff_ne.mpr h.1]
    exact ih h.2

theorem lookup_LEAGUE_MAP_of_mem {k : String} {v : Int}
    (h : (k, v) ∈ LEAGUE_MAP) : LEAGUE_MAP.lookup k = some v := by
  simp only [LEAGUE_MAP] at h
  fin_cases h <;> decide

theorem getKey_ok {j : Json} {k : String} {v : Json} (h : j.getKey k = .ok v) :
    ∃ kvs, j = .obj kvs ∧ kvs.lookup k = some v := by
  cases j <;> simp only [Json.getKey] at h
  case obj kvs =>
    refine ⟨kvs, rfl, ?_⟩
    cases hl : kvs.lookup k <;> rw [hl] at h
    · exact absurd h (by simp)
    · simpa using h
  all_goals exact absurd h (by simp)

theorem truthy_of_getIdx_ok {j v : Json} (h : j.getIdx 0 = .ok v) :
    j.truthy = true := by
  cases j <;> simp only [Json.getIdx] at h
  case arr xs =>
    cases xs with
    | nil => exact absurd h (by simp)
    | cons x t => simp [Json.truthy]
  case str s =>
    cases hc : s.toList.get? 0 with
    | none => rw [hc] at h; exact absurd h (by simp)
    | some c =>
      have hne : s ≠ "" := by
        intro he
        subst he
        simp at hc
      simp [Json.truthy, hne]
  all_goals exact absurd h (by simp)

/-- When the league name resolves, `get_league_standings` is the
fetch-and-process phase. -/
theorem gls_resolved (league_name season : String) (http : HttpOutcome)
    (h : optIntFalsy (_get_league_id league_name) = false) :
    get_league_standings league_name season http
      = match http with
        | .failure e => .error ("API request failed: " ++ e)
        | .success data => processBody data := by
  simp only [get_league_standings, h, Bool.false_eq_true, if_false]

/-- When the league name does not resolve, `get_league_standings`
returns the not-found error for every transport outcome. -/
theorem gls_unresolved (league_name season : String) (http : HttpOutcome)
    (h : optIntFalsy (_get_league_id league_name) = true) :
    get_league_standings league_name season http
      = .error ("Could not find a league with the name '" ++ league_name ++ "'.") := by
  simp only [get_league_standings, h, if_true]

theorem exists_of_hasField {j : Json} {k : String} (h : hasField j k = true) :
    j.getKey k = .ok (j.getKeyD k) := by
  unfold hasField at h
  cases hk : j.getKey k with
  | ok v => rw [Json.getKeyD, hk]
  | error e => rw [hk] at h; exact absurd h (by simp)

/-- On an entry carrying all needed fields, the comprehension body
succeeds and produces exactly the field-mapped record. -/
theorem formatTeam_eq {t : Json} (h : hasTeamFields t = true) :
    formatTeam t = .ok (mappedRecord t) := by
  unfold hasTeamFields at h
  simp only [Bool.and_eq_true] at h
  obtain ⟨⟨⟨⟨⟨⟨⟨⟨h1, h2⟩, h3⟩, h4⟩, h5⟩, h6⟩, h7⟩, h8⟩, h9⟩ := h
  simp only [formatTeam,
    exists_of_hasField h1, exists_of_hasField h2, exists_of_hasField h3,
    exists_of_hasField h4, exists_of_hasField h5, exists_of_hasField h6,
    exists_of_hasField h7, exists_of_hasField h8, exists_of_hasField h9]
  rfl

/-- On a list of entries that all carry the needed fields, the
comprehension succeeds and maps the field extraction over the list. -/
theorem buildRecords_eq {teams : List Json}
    (h : ∀ t ∈ teams, hasTeamFields t = true) :
    buildRecords teams = .ok (teams.map mappedRecord) := by
  induction teams with
  | nil => rfl
  | cons t ts ih =>
    have ht := formatTeam_eq (h t (List.mem_cons_self t ts))
    have hts := ih (fun x hx => h x (List.mem_cons_of_mem t hx))
    rw [List.map_cons, buildRecords, ht, hts]

/-- Once the guard's second operand evaluated without fault, the rest of
the body depends only on the standings value it produced. -/
theorem processBody_of_standings {data st : Json}
    (hst : standingsField data = .ok st) :
    processBody data
      = (if !st.truthy then
           FetchResult.error "No standings found for this league and season."
         else
           match st.getIdx 0 with
           | .error _ => .fault
           | .ok group =>
             match group.pyIter with
             | .error _ => .fault
             | .ok teams =>
               match buildRecords teams with
               | .error _ => .fault
               | .ok recs => .records recs) := by
  have hst0 := hst
  unfold standingsField at hst
  cases hk : data.getKey "response" with
  | error e => rw [hk] at hst; exact absurd hst (by simp)
  | ok resp =>
    rw [hk] at hst
    simp only [] at hst
    cases hidx : resp.getIdx 0 with
    | error e => rw [hidx] at hst; exact absurd hst (by simp)
    | ok first =>
      obtain ⟨kvs, rfl, hl⟩ := getKey_ok hk
      have htr : resp.truthy = true := truthy_of_getIdx_ok hidx
      simp only [processBody, Json.pyGet, hl, pyTruthyOpt, htr, Bool.not_true,
        Bool.false_eq_true, if_false, hst0]

/-- When the first standings group is a list of entries, the result is
decided by running the comprehension on those entries alone. -/
theorem processBody_groups {data : Json} {teams gs : List Json}
    (hst : standingsField data = .ok (.arr (Json.arr teams :: gs))) :
    processBody data
      = (match buildRecords teams with
         | .error _ => FetchResult.fault
         | .ok recs => .records recs) := by
  rw [processBody_of_standings hst]
  rfl

theorem standingsField_mkData (groups : List Json) :
    standingsField (mkData groups) = .ok (.arr groups) := rfl

/-- For a body of the documented shape, only the head group reaches the
comprehension. -/
theorem processBody_mkData (g : Json) (rest : List Json) :
    processBody (mkData (g :: rest))
      = (match g.pyIter with
         | .error _ => FetchResult.fault
         | .ok teams =>
           match buildRecords teams with
           | .error _ => .fault
           | .ok recs => .records recs) := rfl

/-- Resolution computed on a concrete lookup result. -/
theorem optIntFalsy_eq_false_of_lookup (s : String) (v : Int)
    (h : LEAGUE_MAP.lookup s.toLower = some v) (hv : (v == 0) = false) :
    optIntFalsy (_get_league_id s) = false := by
  show optIntFalsy (LEAGUE_MAP.lookup s.toLower) = false
  rw [h]
  exact hv

theorem gls_resolved_failure (league_name season e : String)
    (h : optIntFalsy (_get_league_id league_name) = false) :
    get_league_standings league_name season (.failure e)
      = .error ("API request failed: " ++ e) := by
  rw [gls_resolved _ _ _ h]

theorem gls_resolved_success (league_name season : String) (data : Json)
    (h : optIntFalsy (_get_league_id league_name) = false) :
    get_league_standings league_name season (.success data)
      = processBody data := by
  rw [gls_resolved _ _ _ h]

theorem resolve_premier : _get_league_id "premier league" = some 39 := by
  show LEAGUE_MAP.lookup "premier league".toLower = some 39
  rw [toLower_eq_mk]
  decide

theorem resolve_premier_falsy :
    optIntFalsy (_get_league_id "premier league") = false := by
  rw [resolve_premier]
  rfl

/-! ### Claims -/

/-- C1: for every provider response whose `response[0].league.standings[0]`
is a list of N team entries, each carrying the fields `rank`, `team.name`,
`points`, `all.played`, `all.win`, `all.draw`, `all.lose`, the function
returns exactly N records, in input order, each built by the source's
field mapping (`rank`, `team.name`, `points`, `all.played`, `all.win`,
`all.draw`, `all.lose` into `rank`, `team`, `points`, `games_played`,
`wins`, `draws`, `losses`). -/
theorem C1_field_mapping (league_name season : String) (data : Json)
    (teams gs : List Json)
    (hresolve : optIntFalsy (_get_league_id league_name) = false)
    (hst : standingsField data = .ok (.arr (Json.arr teams :: gs)))
    (hteams : ∀ t ∈ teams, hasTeamFields t = true) :
    get_league_standings league_name season (.success data)
      = .records (teams.map mappedRecord)
    ∧ (teams.map mappedRecord).length = teams.length := by
  constructor
  · rw [gls_resolved_success _ _ _ hresolve, processBody_groups hst,
      buildRecords_eq hteams]
  · exact List.length_map _ _

/-- C1 witness: the spec's La Liga scenario with one Real Madrid entry. -/
theorem C1_field_mapping_witness :
    optIntFalsy (_get_league_id "La Liga") = false
    ∧ standingsField (mkData [Json.arr [rmEntry]])
        = .ok (.arr [Json.arr [rmEntry]])
    ∧ (∀ t ∈ [rmEntry], hasTeamFields t = true)
    ∧ get_league_standings "La Liga" "2024" (.success (mkData [Json.arr [rmEntry]]))
        = .records [⟨.num 1, .str "Real Madrid", .num 90, .num 38,
                     .num 29, .num 3, .num 6⟩] := by
  have h1 : optIntFalsy (_get_league_id "La Liga") = false :=
    optIntFalsy_eq_false_of_lookup "La Liga" 140 (by rw [toLower_eq_mk]; decide) rfl
  have h3 : ∀ t ∈ [rmEntry], hasTeamFields t = true := by decide
  refine ⟨h1, rfl, h3, ?_⟩
  have := (C1_field_mapping "La Liga" "2024" (mkData [Json.arr [rmEntry]])
    [rmEntry] [] h1 rfl h3).1
  rw [this]
  rfl

/-- C2: a league name absent (after lowercasing) from the registry yields
the not-found error with the name interpolated verbatim, for every
transport outcome whatsoever — the result does not depend on the HTTP
layer, which is the embedding's form of "no HTTP call is issued". -/
theorem C2_unknown_league (league_name season : String) (http : HttpOutcome)
    (h : LEAGUE_MAP.lookup league_name.toLower = none) :
    get_league_standings league_name season http
      = .error ("Could not find a league with the name '" ++ league_name ++ "'.") := by
  apply gls_unresolved
  show optIntFalsy (LEAGUE_MAP.lookup league_name.toLower) = true
  rw [h]
  rfl

/-- C2 witness: the spec's Unknown League scenario. -/
theorem C2_unknown_league_witness :
    LEAGUE_MAP.lookup "Unknown League".toLower = none
    ∧ get_league_standings "Unknown League" "2024" (.success (Json.obj []))
        = .error "Could not find a league with the name 'Unknown League'." := by
  have h : LEAGUE_MAP.lookup "Unknown League".toLower = none := by
    rw [toLower_eq_mk]; decide
  refine ⟨h, ?_⟩
  rw [C2_unknown_league "Unknown League" "2024" _ h]
  rfl

/-- C3: when the transport or server signals failure, the function
returns (never raises) an error whose message is exactly the prefix
"API request failed: " followed by the exception text.  The embedding
passes the single attempt's outcome as a value, so exactly one request
is modelled per invocation by construction. -/
theorem C3_transport_failure (league_name season e : String)
    (h : optIntFalsy (_get_league_id league_name) = false) :
    get_league_standings league_name season (.failure e)
      = .error ("API request failed: " ++ e) :=
  gls_resolved_failure league_name season e h

/-- C3 witness: a connection-refused failure on a resolved league. -/
theorem C3_transport_failure_witness :
    optIntFalsy (_get_league_id "premier league") = false
    ∧ get_league_standings "premier league" "2024" (.failure "connection refused")
        = .error "API request failed: connection refused" := by
  refine ⟨resolve_premier_falsy, ?_⟩
  rw [C3_transport_failure "premier league" "2024" "connection refused"
    resolve_premier_falsy]
  rfl

/-- C4: an empty or absent top-level `response` field, or an empty
`league.standings` array under the first response element, yields
exactly the no-standings error. -/
theorem C4_empty_response (league_name season : String) (data : Json)
    (hresolve : optIntFalsy (_get_league_id league_name) = false)
    (h : (∃ kvs, data = .obj kvs
            ∧ (kvs.lookup "response" = none
               ∨ kvs.lookup "response" = some (.arr [])))
         ∨ standingsField data = .ok (.arr [])) :
    get_league_standings league_name season (.success data)
      = .error "No standings found for this league and season." := by
  rw [gls_resolved_success _ _ _ hresolve]
  rcases h with ⟨kvs, rfl, hl | hl⟩ | hst
  · simp only [processBody, Json.pyGet, hl]
    rfl
  · simp only [processBody, Json.pyGet, hl]
    rfl
  · rw [processBody_of_standings hst]
    rfl

/-- C4 witness: a body with no `response` key at all. -/
theorem C4_empty_response_witness :
    optIntFalsy (_get_league_id "mls") = false
    ∧ get_league_standings "mls" "2024" (.success (Json.obj []))
        = .error "No standings found for this league and season." := by
  have h1 : optIntFalsy (_get_league_id "mls") = false :=
    optIntFalsy_eq_false_of_lookup "mls" 253 (by rw [toLower_eq_mk]; decide) rfl
  exact ⟨h1, C4_empty_response "mls" "2024" (Json.obj []) h1
    (.inl ⟨[], rfl, .inl rfl⟩)⟩

/-- C5 counterexample: when the first standings group is itself an empty
list — a shape the guard does not reject, since it only checks that the
outer `standings` array is non-empty — the function returns the empty
sequence, contradicting "never an empty sequence". -/
theorem C5_counterexample_empty_group :
    get_league_standings "premier league" "2024"
      (.success (mkData [Json.arr []])) = .records [] := by
  rw [gls_resolved_success _ _ _ resolve_premier_falsy]
  rfl

/-- C5 (amended): every invocation that returns rather than faults yields
either a sequence of team records (possibly empty, in provider order) or
exactly one single-field error result — never a mix of the two. -/
theorem C5_records_or_error (league_name season : String) (http : HttpOutcome)
    (h : get_league_standings league_name season http ≠ .fault) :
    (∃ rs, get_league_standings league_name season http = .records rs)
    ∨ (∃ msg, get_league_standings league_name season http = .error msg) := by
  cases hr : get_league_standings league_name season http with
  | records rs => exact .inl ⟨rs, rfl⟩
  | error m => exact .inr ⟨m, rfl⟩
  | fault => exact absurd hr h

/-- C5 witness: a transport failure returns (an error), so the
disjunction applies. -/
theorem C5_records_or_error_witness :
    get_league_standings "premier league" "2024" (.failure "timeout") ≠ .fault
    ∧ ((∃ rs, get_league_standings "premier league" "2024" (.failure "timeout")
          = .records rs)
       ∨ (∃ msg, get_league_standings "premier league" "2024" (.failure "timeout")
          = .error msg)) := by
  have he : get_league_standings "premier league" "2024" (.failure "timeout")
      = .error "API request failed: timeout" :=
    gls_resolved_failure "premier league" "2024" "timeout" resolve_premier_falsy
  have hne : get_league_standings "premier league" "2024" (.failure "timeout")
      ≠ .fault := by
    rw [he]
    intro hc
    exact FetchResult.noConfusion hc
  exact ⟨hne, C5_records_or_error "premier league" "2024" (.failure "timeout") hne⟩

/-- C6: resolution is case-insensitive — every string whose lowercasing
equals a registry key resolves to that key's ID, and in particular the
three spellings of Premier League all resolve to 39. -/
theorem C6_case_insensitive :
    (∀ k v, (k, v) ∈ LEAGUE_MAP → ∀ s, s.toLower = k → _get_league_id s = some v)
    ∧ _get_league_id "Premier League" = some 39
    ∧ _get_league_id "premier league" = some 39
    ∧ _get_league_id "PREMIER LEAGUE" = some 39 := by
  refine ⟨?_, ?_, ?_, ?_⟩
  · intro k v hmem s hs
    show LEAGUE_MAP.lookup s.toLower = some v
    rw [hs]
    exact lookup_LEAGUE_MAP_of_mem hmem
  · show LEAGUE_MAP.lookup "Premier League".toLower = some 39
    rw [toLower_eq_mk]
    decide
  · show LEAGUE_MAP.lookup "premier league".toLower = some 39
    rw [toLower_eq_mk]
    decide
  · show LEAGUE_MAP.lookup "PREMIER LEAGUE".toLower = some 39
    rw [toLower_eq_mk]
    decide

/-- C6 witness: a mixed-case variant of a registry key resolves to the
registered ID. -/
theorem C6_case_insensitive_witness :
    ("la liga", (140 : Int)) ∈ LEAGUE_MAP
    ∧ "La LIGA".toLower = "la liga"
    ∧ _get_league_id "La LIGA" = some 140 := by
  have hmem : ("la liga", (140 : Int)) ∈ LEAGUE_MAP := by decide
  have hlow : "La LIGA".toLower = "la liga" := by
    rw [toLower_eq_mk]
    decide
  exact ⟨hmem, hlow, C6_case_insensitive.1 "la liga" 140 hmem "La LIGA" hlow⟩

/-- C7: only the first standings group determines the output — replacing
every other group leaves the result unchanged, and the result equals
that of a response carrying the first group alone. -/
theorem C7_first_group_only (league_name season : String)
    (hresolve : optIntFalsy (_get_league_id league_name) = false)
    (g : Json) (rest rest2 : List Json) :
    get_league_standings league_name season (.success (mkData (g :: rest)))
      = get_league_standings league_name season (.success (mkData (g :: rest2)))
    ∧ get_league_standings league_name season (.success (mkData (g :: rest)))
      = get_league_standings league_name season (.success (mkData [g])) := by
  constructor <;>
    rw [gls_resolved_success _ _ _ hresolve, gls_resolved_success _ _ _ hresolve,
      processBody_mkData, processBody_mkData]

/-- C7 witness: a home/away split after the main group has no effect. -/
theorem C7_first_group_only_witness :
    optIntFalsy (_get_league_id "serie a") = false
    ∧ get_league_standings "serie a" "2024"
        (.success (mkData [Json.arr [rmEntry], Json.arr []]))
      = get_league_standings "serie a" "2024"
        (.success (mkData [Json.arr [rmEntry], Json.null])) := by
  have h : optIntFalsy (_get_league_id "serie a") = false :=
    optIntFalsy_eq_false_of_lookup "serie a" 135 (by rw [toLower_eq_mk]; decide) rfl
  exact ⟨h, (C7_first_group_only "serie a" "2024" h
    (Json.arr [rmEntry]) [Json.arr []] [Json.null]).1⟩

/-- A first response element whose team entry lacks the `team` field:
the shape the guard does not check. -/
def badEntry : Json := .obj [("rank", .num 1)]

/-- C8: a response passing the emptiness guard but with a team entry
missing the `team` field makes the function propagate an uncaught
structural-access fault instead of returning an error object. -/
theorem C8_structural_fault :
    get_league_standings "premier league" "2024"
      (.success (mkData [Json.arr [badEntry]])) = .fault := by
  rw [gls_resolved_success _ _ _ resolve_premier_falsy]
  rfl

/-- C9: the resolver lowercases its input and looks it up in the
registry: any string lowercasing to a registered key yields that key's
ID, and any string whose lowercasing is not a registered key yields
`none`.  The embedding is a pure function, so it has no side effects
and raises nothing. -/
theorem C9_resolver_contract :
    (∀ s k v, (k, v) ∈ LEAGUE_MAP → s.toLower = k → _get_league_id s = some v)
    ∧ (∀ s, s.toLower ∉ LEAGUE_MAP.map Prod.fst → _get_league_id s = none) := by
  constructor
  · intro s k v hmem hs
    show LEAGUE_MAP.lookup s.toLower = some v
    rw [hs]
    exact lookup_LEAGUE_MAP_of_mem hmem
  · intro s hs
    exact lookup_eq_none_of_not_mem hs

/-- C9 witness: a known key in odd casing resolves; an unknown name
resolves to `none`. -/
theorem C9_resolver_contract_witness :
    ("bundesliga", (78 : Int)) ∈ LEAGUE_MAP
    ∧ "BUNDESliga".toLower = "bundesliga"
    ∧ _get_league_id "BUNDESliga" = some 78
    ∧ "Atlantis League".toLower ∉ LEAGUE_MAP.map Prod.fst
    ∧ _get_league_id "Atlantis League" = none := by
  have hmem : ("bundesliga", (78 : Int)) ∈ LEAGUE_MAP := by decide
  have hlow : "BUNDESliga".toLower = "bundesliga" := by
    rw [toLower_eq_mk]
    decide
  have hnot : "Atlantis League".toLower ∉ LEAGUE_MAP.map Prod.fst := by
    rw [toLower_eq_mk]
    decide
  exact ⟨hmem, hlow, C9_resolver_contract.1 "BUNDESliga" "bundesliga" 78 hmem hlow,
    hnot, C9_resolver_contract.2 "Atlantis League" hnot⟩

/-- C10: every registry ID is nonzero, so the truthiness test
`not league_id` holds exactly when the lowercased name is not a
registry key — it never fires for a successfully resolved league. -/
theorem C10_truthiness_equiv :
    (∀ p ∈ LEAGUE_MAP, p.2 ≠ 0)
    ∧ (∀ s, optIntFalsy (_get_league_id s) = true ↔ _get_league_id s = none) := by
  refine ⟨by decide, ?_⟩
  intro s
  constructor
  · intro h
    cases hg : _get_league_id s with
    | none => rfl
    | some v =>
      rw [hg] at h
      have hv : v = 0 := by simpa [optIntFalsy] using h
      have hmem : (s.toLower, v) ∈ LEAGUE_MAP :=
        lookup_mem (show LEAGUE_MAP.lookup s.toLower = some v from hg)
      have hall : ∀ p ∈ LEAGUE_MAP, p.2 ≠ 0 := by decide
      exact absurd hv (hall _ hmem)
  · intro h
    rw [h]
    rfl

/-- C10 witness: a registry entry with its nonzero ID, and an unknown
name on which the falsy test and the `none` test agree. -/
theorem C10_truthiness_equiv_witness :
    ("champions league", (2 : Int)) ∈ LEAGUE_MAP
    ∧ (2 : Int) ≠ 0
    ∧ optIntFalsy (_get_league_id "Narnia Cup") = true
    ∧ _get_league_id "Narnia Cup" = none := by
  have hmem : ("champions league", (2 : Int)) ∈ LEAGUE_MAP := by decide
  have hfalsy : optIntFalsy (_get_league_id "Narnia Cup") = true := by
    show optIntFalsy (LEAGUE_MAP.lookup "Narnia Cup".toLower) = true
    rw [toLower_eq_mk]
    decide
  exact ⟨hmem, C10_truthiness_equiv.1 _ hmem, hfalsy,
    (C10_truthiness_equiv.2 "Narnia Cup").mp hfalsy⟩
